import Mathlib

/-!
Verification of the conversation hand-off coordinator of the chatizia
repository against its natural-language specification.

The TypeScript sources are shallowly embedded: JavaScript strings are
modelled as `List Char` (one entry per UTF-16 code unit; all string
literals involved are ASCII), JavaScript 32-bit integer coercion (`| 0`,
`& `, `<<`) is modelled by `toInt32`, the database is an explicit record
of table rows, and React hook state is threaded explicitly.  Each
definition is annotated with the source file and function it embeds.
-/

/-! ## JavaScript primitives -/

/-- JavaScript `ToInt32` coercion (applied by `<<` and `&`): reduce an
integer modulo 2^32 into the signed range [-2^31, 2^31). -/
def toInt32 (z : Int) : Int :=
  let m := z % (4294967296 : Int)
  if m < 2147483648 then m else m - 4294967296

/-- The rolling-hash loop shared verbatim by every `generateConversationId`
implementation in the repository:
`hash = ((hash << 5) - hash) + charCodeAt(i); hash = hash & hash;`
`hash << 5` coerces to Int32 and shifts (`toInt32 (hash * 32)`); the
subtraction and addition are exact (double precision suffices); `hash & hash`
coerces the result back to Int32. -/
def jsHash32 (s : List Char) : Int :=
  s.foldl (fun hash c => toInt32 (toInt32 (hash * 32) - hash + (c.toNat : Int))) 0

/-- Hex digits of a natural number, most significant first, `fuel` bounding
the number of digits produced.  Models `Number.prototype.toString(16)` for
the nonzero case. -/
def toHexLoop : Nat → Nat → List Char
  | 0, _ => []
  | fuel + 1, n => if n = 0 then [] else toHexLoop fuel (n / 16) ++ [Nat.digitChar (n % 16)]

/-- JavaScript `Math.abs(hash).toString(16)` for the 32-bit values arising
here: 8 hex digits always suffice because `Math.abs` of an Int32 is at most
2^31 < 16^8. -/
def jsToHex (n : Nat) : List Char :=
  if n = 0 then ['0'] else toHexLoop 8 n

/-- JavaScript `String.prototype.padStart(len, c)`. -/
def padStart (len : Nat) (c : Char) (s : List Char) : List Char :=
  List.replicate (len - s.length) c ++ s

/-! ## Identity Deriver: the four textually identical implementations

`substring(a, b)` is modelled by `take`/`drop`; the template string
concatenation and the final `.substring(0, 36)` are kept verbatim. -/

namespace useChatbot

/-- `src/src/hooks/useChatbot.ts` lines 39-56, `generateConversationId`. -/
def generateConversationId (chatbotId sessionId : List Char) : List Char :=
  let combined := chatbotId ++ '_' :: sessionId
  let hash := jsHash32 combined
  let hashHex := padStart 8 '0' (jsToHex hash.natAbs)
  List.take 36 (List.take 8 hashHex ++ '-' ::
    (List.take 4 hashHex ++ '-' ::
      ('4' :: List.take 3 (List.drop 1 hashHex) ++ '-' ::
        ('8' :: List.take 3 hashHex ++ '-' :: (hashHex ++ hashHex)))))

end useChatbot

namespace RealTimeChatManager

/-- `src/src/lib/realTimeChatManager.ts` lines 159-169,
`RealTimeChatManager.generateConversationId`. -/
def generateConversationId (chatbotId sessionId : List Char) : List Char :=
  let combined := chatbotId ++ '_' :: sessionId
  let hash := jsHash32 combined
  let hashHex := padStart 8 '0' (jsToHex hash.natAbs)
  List.take 36 (List.take 8 hashHex ++ '-' ::
    (List.take 4 hashHex ++ '-' ::
      ('4' :: List.take 3 (List.drop 1 hashHex) ++ '-' ::
        ('8' :: List.take 3 hashHex ++ '-' :: (hashHex ++ hashHex)))))

end RealTimeChatManager

namespace SocketChatManager

/-- `src/src/lib/socketChatManager.ts` lines 362-372,
`SocketChatManager.generateConversationId`. -/
def generateConversationId (chatbotId sessionId : List Char) : List Char :=
  let combined := chatbotId ++ '_' :: sessionId
  let hash := jsHash32 combined
  let hashHex := padStart 8 '0' (jsToHex hash.natAbs)
  List.take 36 (List.take 8 hashHex ++ '-' ::
    (List.take 4 hashHex ++ '-' ::
      ('4' :: List.take 3 (List.drop 1 hashHex) ++ '-' ::
        ('8' :: List.take 3 hashHex ++ '-' :: (hashHex ++ hashHex)))))

end SocketChatManager

namespace RealtimeService

/-- `src/src/lib/realtime.ts` lines 37-54,
`RealtimeService.generateConversationId`. -/
def generateConversationId (chatbotId sessionId : List Char) : List Char :=
  let combined := chatbotId ++ '_' :: sessionId
  let hash := jsHash32 combined
  let hashHex := padStart 8 '0' (jsToHex hash.natAbs)
  List.take 36 (List.take 8 hashHex ++ '-' ::
    (List.take 4 hashHex ++ '-' ::
      ('4' :: List.take 3 (List.drop 1 hashHex) ++ '-' ::
        ('8' :: List.take 3 hashHex ++ '-' :: (hashHex ++ hashHex)))))

end RealtimeService

/-! ## Data model

Rows of the Store tables, exactly the columns the modelled code reads or
writes (timestamps and surrogate row ids, which no modelled branch
inspects, are omitted). -/

/-- The `role` column of the `messages` table. -/
inductive Role
  | user
  | assistant
  | agent
deriving DecidableEq, Repr

/-- The `sender` field of the UI-side `ChatbotMessage`
(`src/src/hooks/useChatbot.ts` lines 9-15). -/
inductive Sender
  | user
  | bot
  | agent
deriving DecidableEq, Repr

/-- The `type` column of `agent_notifications`
(`src/src/hooks/useAgents.ts` lines 35-44). -/
inductive NotificationType
  | escalation
  | new_message
  | manual_request
deriving DecidableEq, Repr

structure ConversationRow where
  id : List Char
  chatbot_id : List Char
  session_id : List Char
deriving DecidableEq, Repr

structure MessageRow where
  conversation_id : List Char
  content : List Char
  role : Role
  agent_id : Option (List Char)
deriving DecidableEq, Repr

/-- A row of `conversation_agents`: the Ownership Assignment. -/
structure ConversationAgentRow where
  conversation_id : List Char
  agent_id : List Char
  knowledge_base_enabled : Bool
deriving DecidableEq, Repr

/-- A row of `agent_assignments` (agent eligible for a chatbot). -/
structure AgentAssignmentRow where
  agent_id : List Char
  chatbot_id : List Char
deriving DecidableEq, Repr

structure NotificationRow where
  agent_id : List Char
  conversation_id : List Char
  type : NotificationType
  message : List Char
  chatbot_name : Option (List Char)
deriving DecidableEq, Repr

/-- The durable relational Store: one list of rows per table touched by the
modelled code. -/
structure Store where
  conversations : List ConversationRow
  messages : List MessageRow
  conversation_agents : List ConversationAgentRow
  agent_assignments : List AgentAssignmentRow
  agent_notifications : List NotificationRow
deriving DecidableEq, Repr

/-- Error taxonomy surfaced by the Store adapter calls. -/
inductive DbError
  | conflict
  | notFound
  | serviceError
deriving DecidableEq, Repr

/-- The chatbot fields read by the modelled code paths. -/
structure Chatbot where
  id : List Char
  name : List Char
  knowledge_base_id : Option (List Char)
deriving DecidableEq, Repr

/-- UI-side message (`ChatbotMessage`, `src/src/hooks/useChatbot.ts`
lines 9-15; the `timestamp` field is read by no modelled branch). -/
structure ChatbotMessage where
  id : List Char
  text : List Char
  sender : Sender
  sources : List (List Char) := []
deriving DecidableEq, Repr

/-- React state of the `useChatbot` hook (`src/src/hooks/useChatbot.ts`
lines 18-26), threaded explicitly.  A value of this type stands for the
bindings captured by one render's closures; `set…` calls produce the state
the NEXT render will capture and never alter the current bindings. -/
structure HookState where
  messages : List ChatbotMessage
  isTyping : Bool
  currentSessionId : Option (List Char)
  sentimentHistory : List Bool
  isEscalated : Bool
  agentTakenOver : Bool
  assignedAgent : Option (List Char)
  knowledgeBaseEnabled : Bool
  currentConversationId : Option (List Char)
deriving DecidableEq, Repr

/-- The fresh hook state (`useState` initializers, lines 18-26). -/
def HookState.init : HookState :=
  ⟨[], false, none, [], false, false, none, true, none⟩

/-! ## Conversation Store Adapter -/

namespace RealTimeChatManager

/-- `src/src/lib/realTimeChatManager.ts` lines 136-156,
`RealTimeChatManager.ensureConversation`: derive the id, insert the
conversation row if absent. -/
def ensureConversation (chatbotId sessionId : List Char) (store : Store) :
    (List Char) × Store :=
  let conversationId := generateConversationId chatbotId sessionId
  (conversationId,
    if store.conversations.any (fun r => r.id = conversationId) then store
    else
      { store with conversations :=
          store.conversations ++ [⟨conversationId, chatbotId, sessionId⟩] })

/-- `src/src/lib/realTimeChatManager.ts` lines 112-133,
`RealTimeChatManager.sendMessage`: append-only insert into `messages`. -/
def sendMessage (conversationId content : List Char) (role : Role)
    (agentId : Option (List Char)) (store : Store) : Store :=
  { store with messages :=
      store.messages ++ [⟨conversationId, content, role, agentId⟩] }

/-- `src/src/lib/realTimeChatManager.ts` lines 172-191,
`RealTimeChatManager.toggleKnowledgeBase`: a filtered UPDATE on
`conversation_agents` matching both the conversation and the acting agent.
The underlying store reports an error only on a database failure; an UPDATE
matching zero rows succeeds with zero rows affected, so the happy path
always returns `ok`. -/
def toggleKnowledgeBase (conversationId : List Char) (enabled : Bool)
    (agentId : List Char) (store : Store) : Except DbError Store :=
  .ok { store with conversation_agents :=
      store.conversation_agents.map (fun r =>
        if r.conversation_id = conversationId ∧ r.agent_id = agentId then
          { r with knowledge_base_enabled := enabled }
        else r) }

end RealTimeChatManager

namespace RealtimeService

/-- `src/src/lib/realtime.ts` lines 289-310,
`RealtimeService.toggleKnowledgeBase`: a filtered UPDATE on
`conversation_agents` matching the conversation only.  As above, a
zero-row UPDATE is not an error. -/
def toggleKnowledgeBase (conversationId : List Char) (enabled : Bool)
    (store : Store) : Except DbError Store :=
  .ok { store with conversation_agents :=
      store.conversation_agents.map (fun r =>
        if r.conversation_id = conversationId then
          { r with knowledge_base_enabled := enabled }
        else r) }

end RealtimeService

/-- Modelled from the spec: the `CREATE TABLE` DDL for `conversation_agents`
is not among the repository sources (the shipped migrations only alter the
table), so the row-level conflict behaviour of an insert into it is taken
from spec sections 4.2 and 5: the Store signals Conflict when an Ownership
Assignment row already exists for the conversation (at-most-one-human-owner,
insert conflict as the authoritative exclusion mechanism). -/
def insertConversationAgent (row : ConversationAgentRow) (store : Store) :
    Except DbError Store :=
  if store.conversation_agents.any
      (fun r => r.conversation_id = row.conversation_id) then
    .error .conflict
  else
    .ok { store with conversation_agents := store.conversation_agents ++ [row] }

namespace useAgents

/-- `src/src/hooks/useAgents.ts` lines 242-267, `assignAgentToConversation`:
insert an Ownership Assignment with `knowledge_base_enabled: true`,
propagating any store error to the caller. -/
def assignAgentToConversation (conversationId agentId : List Char)
    (store : Store) : Except DbError Store :=
  insertConversationAgent ⟨conversationId, agentId, true⟩ store

end useAgents

namespace AgentLogin

/-- The Ownership release performed by `handleHandBackToBot`
(`src/src/pages/AgentLogin.tsx` lines 632-639): delete the
`conversation_agents` rows matching the conversation and the acting agent.
(The hand-back chat message the handler sends first through the
`add_session_message` RPC touches only the `messages` table, not the
assignment table, and is not modelled here.) -/
def releaseAssignment (conversationId agentId : List Char) (store : Store) :
    Store :=
  { store with conversation_agents :=
      store.conversation_agents.filter (fun r =>
        ¬(r.conversation_id = conversationId ∧ r.agent_id = agentId)) }

end AgentLogin

/-! ## Response Orchestrator and Escalation Policy (`useChatbot`)

External collaborators are passed as function parameters: `classify` is the
sentiment Classifier (its `shouldEscalate` verdict on the recent customer
texts), `retrieve` is the Retrieval service (`fetchSimilarChunks`, returning
(chunk text, chunk index) pairs), and `generateChatResponse` is the
Responder (message plus optional sources, or a service failure).  `now`
stands for the `Date.now()` reading used to build UI message ids (no
modelled branch inspects these ids) and `freshSessionId` for the randomly
generated session id used when none exists yet. -/

namespace useChatbot

/-- `src/src/hooks/useChatbot.ts` lines 168-202, `checkAgentTakeover`:
fetch the Ownership Assignment for the conversation (`maybeSingle`) and
write the three derived state fields for the next render. -/
def checkAgentTakeover (conversationId : List Char) (s : HookState)
    (store : Store) : HookState :=
  match store.conversation_agents.find?
      (fun r => r.conversation_id = conversationId) with
  | some row =>
      { s with agentTakenOver := true,
               assignedAgent := some row.agent_id,
               knowledgeBaseEnabled := row.knowledge_base_enabled }
  | none =>
      { s with agentTakenOver := false,
               assignedAgent := none,
               knowledgeBaseEnabled := true }

/-- `src/src/hooks/useChatbot.ts` lines 367-405, `escalateToHumanAgent`:
query `agent_assignments` for the chatbot with `limit(1)`; if none, return
with no write; otherwise insert exactly one escalation notification.  It
performs no other write — in particular none to `conversation_agents`. -/
def escalateToHumanAgent (chatbot : Chatbot) (conversationId : List Char)
    (store : Store) : Store :=
  match (store.agent_assignments.filter
      (fun a => a.chatbot_id = chatbot.id)).take 1 with
  | [] => store
  | a :: _ =>
      { store with agent_notifications := store.agent_notifications ++
          [⟨a.agent_id, conversationId, .escalation,
            "Customer conversation escalated due to negative sentiment in ".data
              ++ chatbot.name,
            some chatbot.name⟩] }

/-- Observable external-call counts of one `sendMessage` run. -/
structure SendEffects where
  classifierCalls : Nat := 0
  responderCalls : Nat := 0
  retrievalCalls : Nat := 0
deriving DecidableEq, Repr

/-- Result of the part of `sendMessage` that runs before the Responder is
(possibly) invoked. -/
inductive Phase1Result
  | stopped (s : HookState) (store : Store) (eff : SendEffects)
  | needResponder (conversationId : List Char)
      (chatHistory : List (Role × List Char)) (context : List Char)
      (sources : List (List Char)) (s : HookState) (store : Store)
      (eff : SendEffects)
deriving DecidableEq, Repr

/-- `src/src/hooks/useChatbot.ts` lines 204-319: the body of `sendMessage`
up to (and excluding) the `generateChatResponse` call.  `s` is the state
captured by the render that created this closure; reads of `agentTakenOver`,
`isEscalated`, `messages` and `knowledgeBaseEnabled` inside the body refer
to those captured bindings, while `set…` calls only shape the state
returned for subsequent renders. -/
def sendMessagePhase1 (chatbot : Chatbot)
    (classify : List (List Char) → Bool)
    (retrieve : List Char → List (List Char × Nat))
    (now freshSessionId : List Char)
    (userMessage : List Char) (s : HookState) (store : Store) : Phase1Result :=
  -- lines 207-216: add the user message to the UI, start typing indicator
  let userChatMessage : ChatbotMessage :=
    ⟨"user-".data ++ now, userMessage, .user, []⟩
  let s0 : HookState :=
    { s with messages := s.messages ++ [userChatMessage], isTyping := true }
  -- lines 220-225: create session id if absent
  let sessionId := s.currentSessionId.getD freshSessionId
  let s1 := { s0 with currentSessionId := some sessionId }
  -- lines 227-233: ensure the conversation exists
  let convStore := RealTimeChatManager.ensureConversation chatbot.id sessionId store
  let conversationId := convStore.1
  let store1 := convStore.2
  let s2 :=
    if s.currentConversationId.isNone then
      { s1 with currentConversationId := some conversationId }
    else s1
  -- line 236: persist the customer message
  let store2 :=
    RealTimeChatManager.sendMessage conversationId userMessage .user none store1
  -- line 241: checkAgentTakeover writes state for the NEXT render …
  let s3 := checkAgentTakeover conversationId s2 store2
  -- line 244: … but this test reads the binding captured at render time
  if s.agentTakenOver then
    .stopped { s3 with isTyping := false } store2 {}
  else
    -- lines 254-256: last 4 captured UI messages plus the current one,
    -- customer messages only
    let recentMessages :=
      ((s.messages.drop (s.messages.length - 4)) ++ [userChatMessage]).filter
        (fun m => m.sender = Sender.user) |>.map (fun m => m.text)
    -- line 258
    if recentMessages.length > 0 ∧ ¬s.isEscalated ∧ ¬s.agentTakenOver then
      -- line 260: one Classifier call on the recent customer texts
      let shouldEscalate := classify recentMessages
      let s4 := { s3 with sentimentHistory :=
        (s3.sentimentHistory.drop (s3.sentimentHistory.length - 4))
          ++ [shouldEscalate] }
      if shouldEscalate then
        -- lines 266-282: escalate, mark escalated, post the notice, stop
        let store3 := escalateToHumanAgent chatbot conversationId store2
        let escalationMessage : ChatbotMessage :=
          ⟨"escalation-".data ++ now,
           "I understand you're having some difficulties. I'm connecting you with one of our human agents who will be able to better assist you. Please hold on for a moment.".data,
           .bot, []⟩
        .stopped
          { s4 with isEscalated := true,
                    messages := s4.messages ++ [escalationMessage],
                    isTyping := false }
          store3 { classifierCalls := 1 }
      else
        -- lines 285-319: optional retrieval, then hand off to the Responder
        sendMessagePrepareResponder chatbot retrieve userMessage
          conversationId s s4 store2 { classifierCalls := 1 }
    else
      sendMessagePrepareResponder chatbot retrieve userMessage
        conversationId s s3 store2 {}
where
  /-- Lines 285-319: knowledge-base retrieval (only if the chatbot has one
  and the captured `knowledgeBaseEnabled` binding is true) and assembly of
  the bounded chat history for the Responder. -/
  sendMessagePrepareResponder (chatbot : Chatbot)
      (retrieve : List Char → List (List Char × Nat))
      (userMessage : List Char)
      (conversationId : List Char) (s snext : HookState) (store : Store)
      (eff : SendEffects) : Phase1Result :=
    let doRetrieve := chatbot.knowledge_base_id.isSome ∧ s.knowledgeBaseEnabled
    let chunks := if doRetrieve then retrieve userMessage else []
    let context :=
      List.intercalate "\n\n".data (chunks.map (fun c => c.1))
    let sources :=
      chunks.map (fun c => "Document chunk ".data ++ Nat.toDigits 10 (c.2 + 1))
    let eff1 :=
      { eff with retrievalCalls := if doRetrieve then 1 else 0 }
    -- lines 308-319: last 5 captured UI messages plus the current text
    let chatHistory :=
      ((s.messages.drop (s.messages.length - 5)).map (fun m =>
          ((if m.sender = Sender.user then Role.user else Role.assistant),
           m.text)))
        ++ [(Role.user, userMessage)]
    .needResponder conversationId chatHistory context sources snext store eff1

/-- `src/src/hooks/useChatbot.ts` lines 325-349: after the Responder
returned, persist its reply as an `assistant` message unconditionally (no
read of `conversation_agents` occurs between the Responder call and this
insert), and schedule the UI fallback append keyed on text and sender. -/
def sendMessagePhase2 (conversationId responderMessage : List Char)
    (responderSources : Option (List (List Char)))
    (retrievedSources : List (List Char)) (now : List Char)
    (s : HookState) (store : Store) : HookState × Store :=
  let store1 :=
    RealTimeChatManager.sendMessage conversationId responderMessage
      .assistant none store
  let s1 :=
    if s.messages.any (fun m =>
        m.text = responderMessage ∧ m.sender = Sender.bot) then
      { s with isTyping := false }
    else
      { s with
          messages := s.messages ++
            [⟨"bot-fallback-".data ++ now, responderMessage, .bot,
              responderSources.getD retrievedSources⟩],
          isTyping := false }
  (s1, store1)

/-- `src/src/hooks/useChatbot.ts` lines 204-365, `sendMessage`, end to end.
`midStore` is the interference of concurrent independent callers on the
Store while this call is suspended awaiting the Responder (`midStore = id`
recovers the interference-free run); the Responder is the only suspension
point a claim quantifies over.  A Responder failure takes the catch block
(lines 351-364): one apology message is shown and nothing is persisted. -/
def sendMessage (chatbot : Chatbot)
    (classify : List (List Char) → Bool)
    (retrieve : List Char → List (List Char × Nat))
    (generateChatResponse :
      List (Role × List Char) → List Char →
        Except Unit (List Char × Option (List (List Char))))
    (midStore : Store → Store)
    (now freshSessionId : List Char)
    (userMessage : List Char) (s : HookState) (store : Store) :
    HookState × Store × SendEffects :=
  match sendMessagePhase1 chatbot classify retrieve now freshSessionId
      userMessage s store with
  | .stopped s1 store1 eff => (s1, store1, eff)
  | .needResponder conversationId chatHistory context sources s1 store1 eff =>
    let store2 := midStore store1
    match generateChatResponse chatHistory context with
    | .ok (message, responderSources) =>
        let (s2, store3) :=
          sendMessagePhase2 conversationId message responderSources sources
            now s1 store2
        (s2, store3, { eff with responderCalls := eff.responderCalls + 1 })
    | .error _ =>
        let errorMessage : ChatbotMessage :=
          ⟨"bot-error-".data ++ now,
           "I apologize, but I'm experiencing some technical difficulties. Please try again later.".data,
           .bot, []⟩
        ({ s1 with messages := s1.messages ++ [errorMessage],
                   isTyping := false },
         store2, { eff with responderCalls := eff.responderCalls + 1 })

/-- The message payload delivered by the Event Bus
(`ChatMessage`, `src/src/lib/realTimeChatManager.ts` lines 4-11). -/
structure IncomingMessage where
  id : List Char
  content : List Char
  role : Role
  agent_id : Option (List Char)
deriving DecidableEq, Repr

/-- `src/src/hooks/useChatbot.ts` lines 66-94: the subscription `onMessage`
handler's effect on the UI message list — convert the payload and append it
unless a message with the same id is already present. -/
def onMessage (prev : List ChatbotMessage) (message : IncomingMessage) :
    List ChatbotMessage :=
  let newMessage : ChatbotMessage :=
    ⟨message.id, message.content,
     if message.role = Role.user then Sender.user
     else if message.agent_id.isSome then Sender.agent
     else Sender.bot, []⟩
  if prev.any (fun msg => msg.id = newMessage.id) then prev
  else prev ++ [newMessage]

end useChatbot

/-! ## Concrete inputs and run helpers used by the claim theorems -/

/-! ### C1: concrete run exhibiting the stale-closure ownership check -/

/-- The bot of the C1 failing run. -/
def c1bot : Chatbot := ⟨"bot1".data, "Bot One".data, none⟩

/-- The conversation id the hook derives for the C1 run. -/
def c1conv : List Char :=
  RealTimeChatManager.generateConversationId "bot1".data "sess1".data

/-- Store for the C1 run: the conversation exists and an Ownership
Assignment row for it is live — the conversation is Human-Owned. -/
def c1store : Store :=
  ⟨[⟨c1conv, "bot1".data, "sess1".data⟩], [],
   [⟨c1conv, "agentA".data, false⟩], [], []⟩

/-- Hook state for the C1 run: the render happened before any
takeover event was observed, so the captured `agentTakenOver` is false. -/
def c1state : HookState :=
  { HookState.init with
      currentSessionId := some "sess1".data,
      currentConversationId := some c1conv }

/-- The C1 run: one customer message, Classifier says do not escalate,
no concurrent store writes. -/
def c1run : HookState × Store × useChatbot.SendEffects :=
  useChatbot.sendMessage c1bot (fun _ => false) (fun _ => [])
    (fun _ _ => .ok ("ok".data, none)) id "1".data "s".data
    "help".data c1state c1store

/-! ### C3: the reply is persisted with no ownership re-check -/

/-- The bot of the C3 run. -/
def c3bot : Chatbot := ⟨"bot3".data, "Bot Three".data, none⟩

/-- The conversation id the hook derives for the C3 run. -/
def c3conv : List Char :=
  RealTimeChatManager.generateConversationId "bot3".data "sess3".data

/-- Hook state for the C3 run: clean Bot-Owned conversation. -/
def c3state : HookState :=
  { HookState.init with
      currentSessionId := some "sess3".data,
      currentConversationId := some c3conv }

/-- Concurrent interference for the C3 run: while the Responder call is in
flight, an agent takes the conversation over (an Ownership Assignment row
is inserted). -/
def c3takeover : Store → Store := fun st =>
  { st with conversation_agents :=
      st.conversation_agents ++ [⟨c3conv, "agentB".data, false⟩] }

/-- The C3 run: Bot-Owned store, mid-call takeover. -/
def c3run : HookState × Store × useChatbot.SendEffects :=
  useChatbot.sendMessage c3bot (fun _ => false) (fun _ => [])
    (fun _ _ => .ok ("generated reply".data, none)) c3takeover
    "2".data "s".data "hi".data c3state ⟨[], [], [], [], []⟩

/-! ### C6: escalation fires at most once per Bot-Owned period -/

/-- Number of escalation notifications in the store. -/
def escalationCount (store : Store) : Nat :=
  (store.agent_notifications.filter
    (fun n => n.type = NotificationType.escalation)).length

/-- A sequence of customer messages handled one `sendMessage` call after
another, the next render capturing the state the previous call produced
(no concurrent store writes). -/
def runCustomerMessages (cb : Chatbot)
    (classify : List (List Char) → Bool)
    (retrieve : List Char → List (List Char × Nat))
    (gen : List (Role × List Char) → List Char →
      Except Unit (List Char × Option (List (List Char))))
    (now fresh : List Char) (msgs : List (List Char))
    (s : HookState) (store : Store) : HookState × Store :=
  msgs.foldl (fun acc um =>
    ((useChatbot.sendMessage cb classify retrieve gen id now fresh um
        acc.1 acc.2).1,
     (useChatbot.sendMessage cb classify retrieve gen id now fresh um
        acc.1 acc.2).2.1))
    (s, store)

/-- The bot of the C6 witness run. -/
def c6bot : Chatbot := ⟨"bot6".data, "Bot Six".data, none⟩

/-- Store for the C6 witness run: Bot-Owned, one agent assigned to the
bot, no notifications yet. -/
def c6store : Store := ⟨[], [], [], [⟨"agent6".data, "bot6".data⟩], []⟩

/-! ## Supporting lemmas on the hash and hex formatting -/

/-- The sixteen lowercase hex digit characters. -/
def hexDigits : List Char := "0123456789abcdef".data

theorem toInt32_bounds (z : Int) :
    -2147483648 ≤ toInt32 z ∧ toInt32 z < 2147483648 := by
  unfold toInt32
  have h0 : (0 : Int) ≤ z % 4294967296 :=
    Int.emod_nonneg z (by norm_num)
  have h1 : z % 4294967296 < 4294967296 :=
    Int.emod_lt_of_pos z (by norm_num)
  dsimp only
  split <;> omega

theorem jsHash32_bounds (s : List Char) :
    -2147483648 ≤ jsHash32 s ∧ jsHash32 s < 2147483648 := by
  unfold jsHash32
  have key : ∀ (l : List Char) (h : Int),
      -2147483648 ≤ h → h < 2147483648 →
      -2147483648 ≤
          l.foldl (fun hash c =>
            toInt32 (toInt32 (hash * 32) - hash + (c.toNat : Int))) h ∧
        l.foldl (fun hash c =>
            toInt32 (toInt32 (hash * 32) - hash + (c.toNat : Int))) h <
          2147483648 := by
    intro l
    induction l with
    | nil => intro h h1 h2; exact ⟨h1, h2⟩
    | cons c l ih =>
        intro h _ _
        simp only [List.foldl_cons]
        have hb := toInt32_bounds (toInt32 (h * 32) - h + (c.toNat : Int))
        exact ih _ hb.1 hb.2
  exact key s 0 (by norm_num) (by norm_num)

theorem jsHash32_natAbs_lt (s : List Char) :
    (jsHash32 s).natAbs < 4294967296 := by
  have h := jsHash32_bounds s
  omega

theorem toHexLoop_length_le (fuel : Nat) :
    ∀ (k n : Nat), n < 16 ^ k → (toHexLoop fuel n).length ≤ k := by
  induction fuel with
  | zero => intro k n _; simp [toHexLoop]
  | succ fuel ih =>
      intro k n hn
      unfold toHexLoop
      split
      · simp
      · rename_i hne
        match k with
        | 0 => simp at hn; omega
        | k + 1 =>
            have hdiv : n / 16 < 16 ^ k := by
              have : n < 16 ^ k * 16 := by
                have := hn; rw [pow_succ] at this; exact this
              omega
            have := ih k (n / 16) hdiv
            simp only [List.length_append, List.length_cons, List.length_nil]
            omega

theorem toHexLoop_mem (fuel : Nat) :
    ∀ (n : Nat) (c : Char), c ∈ toHexLoop fuel n → c ∈ hexDigits := by
  induction fuel with
  | zero => intro n c hc; simp [toHexLoop] at hc
  | succ fuel ih =>
      intro n c hc
      unfold toHexLoop at hc
      split at hc
      · simp at hc
      · rcases List.mem_append.mp hc with h | h
        · exact ih _ _ h
        · have hd : ∀ m : Nat, m < 16 → Nat.digitChar m ∈ hexDigits := by decide
          simp only [List.mem_singleton] at h
          subst h
          exact hd _ (Nat.mod_lt _ (by norm_num))

theorem jsToHex_length_le (n : Nat) (hn : n < 4294967296) :
    (jsToHex n).length ≤ 8 := by
  unfold jsToHex
  split
  · simp
  · exact toHexLoop_length_le 8 8 n (by norm_num; omega)

theorem jsToHex_mem (n : Nat) (c : Char) (hc : c ∈ jsToHex n) :
    c ∈ hexDigits := by
  unfold jsToHex at hc
  split at hc
  · simp at hc; subst hc; decide
  · exact toHexLoop_mem 8 n c hc

theorem padStart8_length (s : List Char) (hs : s.length ≤ 8) :
    (padStart 8 '0' s).length = 8 := by
  simp [padStart]; omega

theorem padStart8_mem (s : List Char) (c : Char)
    (hc : c ∈ padStart 8 '0' s) : c = '0' ∨ c ∈ s := by
  rcases List.mem_append.mp hc with h | h
  · exact Or.inl (List.eq_of_mem_replicate h)
  · exact Or.inr h

/-- The zero-padded hex rendering of the hash is 8 hex digits. -/
theorem hashHex_spec (s : List Char) :
    (padStart 8 '0' (jsToHex (jsHash32 s).natAbs)).length = 8 ∧
      ∀ c ∈ padStart 8 '0' (jsToHex (jsHash32 s).natAbs), c ∈ hexDigits := by
  constructor
  · exact padStart8_length _ (jsToHex_length_le _ (jsHash32_natAbs_lt s))
  · intro c hc
    rcases padStart8_mem _ c hc with h | h
    · subst h; decide
    · exact jsToHex_mem _ c h

theorem hexDigits_ne_dash : ∀ c ∈ hexDigits, c ≠ '-' := by decide

/-! ## Claim theorems -/

/-- C4: conversation-identifier derivation is a pure deterministic function
of (botId, sessionId) — equal inputs give the identical identifier — and
the implementations in `useChatbot`, `RealTimeChatManager`,
`SocketChatManager` and `RealtimeService` all return the same identifier
for the same input pair. -/
theorem deriveConversationId_deterministic_and_agreeing
    (botId sessionId : List Char) :
    useChatbot.generateConversationId botId sessionId =
        RealTimeChatManager.generateConversationId botId sessionId ∧
      RealTimeChatManager.generateConversationId botId sessionId =
        SocketChatManager.generateConversationId botId sessionId ∧
      SocketChatManager.generateConversationId botId sessionId =
        RealtimeService.generateConversationId botId sessionId ∧
      ∀ b s : List Char, b = botId → s = sessionId →
        useChatbot.generateConversationId b s =
          useChatbot.generateConversationId botId sessionId := by
  refine ⟨rfl, rfl, rfl, ?_⟩
  rintro b s rfl rfl
  rfl

/-- Witness for C4 at a concrete input pair. -/
theorem deriveConversationId_deterministic_and_agreeing_witness :
    useChatbot.generateConversationId "bot".data "sess".data =
      useChatbot.generateConversationId "bot".data "sess".data :=
  (deriveConversationId_deterministic_and_agreeing "bot".data
    "sess".data).2.2.2 "bot".data "sess".data rfl rfl

/-- C5 counterexample: the derivation does NOT have 128-bit collision
strength — the distinct pairs ("Aa", "x") and ("BB", "x") map to the same
conversation identifier (the 32-bit rolling hash of "Aa_x" and "BB_x" is
2032697 in both cases). -/
theorem generateConversationId_collision :
    ("Aa".data, "x".data) ≠ ("BB".data, "x".data) ∧
      SocketChatManager.generateConversationId "Aa".data "x".data =
        SocketChatManager.generateConversationId "BB".data "x".data := by
  decide

/-- C5 amended: the identifier is derived from the non-cryptographic 32-bit
rolling hash `hash = toInt32 (toInt32 (hash * 32) - hash + code)` of
`botId ++ "_" ++ sessionId`, so it depends only on that 32-bit value:
whenever two pairs hash alike the identifiers coincide (collision
resistance is at most 32-bit, not 128-bit). -/
theorem generateConversationId_depends_only_on_hash32
    (b1 s1 b2 s2 : List Char)
    (h : jsHash32 (b1 ++ '_' :: s1) = jsHash32 (b2 ++ '_' :: s2)) :
    SocketChatManager.generateConversationId b1 s1 =
      SocketChatManager.generateConversationId b2 s2 := by
  simp only [SocketChatManager.generateConversationId]
  rw [h]

/-- Witness for the amended C5 at the concrete colliding pairs. -/
theorem generateConversationId_depends_only_on_hash32_witness :
    SocketChatManager.generateConversationId "Aa".data "x".data =
      SocketChatManager.generateConversationId "BB".data "x".data :=
  generateConversationId_depends_only_on_hash32 "Aa".data "x".data
    "BB".data "x".data (by decide)

/-- C9: applying a message-appended event to the subscriber's message list
is idempotent in the message id — if a message with the event's id is
already present the list is unchanged, and a second delivery of the same
event never adds a second entry. -/
theorem onMessage_dedupes_by_id (prev : List ChatbotMessage)
    (m : useChatbot.IncomingMessage) :
    ((∃ msg ∈ prev, msg.id = m.id) → useChatbot.onMessage prev m = prev) ∧
      useChatbot.onMessage (useChatbot.onMessage prev m) m =
        useChatbot.onMessage prev m := by
  constructor
  · intro hex
    have hany : prev.any (fun msg => msg.id = m.id) = true := by
      rcases hex with ⟨msg, hmem, hid⟩
      exact List.any_eq_true.mpr ⟨msg, hmem, by simp [hid]⟩
    simp [useChatbot.onMessage, hany]
  · by_cases hany : prev.any (fun msg => msg.id = m.id) = true
    · simp [useChatbot.onMessage, hany]
    · simp only [useChatbot.onMessage, hany, if_false, Bool.false_eq_true]
      have hany2 :
          (prev ++
              [(⟨m.id, m.content,
                if m.role = Role.user then Sender.user
                else if m.agent_id.isSome then Sender.agent
                else Sender.bot, []⟩ : ChatbotMessage)]).any
            (fun msg => msg.id = m.id) = true := by
        simp [List.any_append]
      simp [hany2]

/-- Witness for C9: a duplicate delivery at a concrete list and event. -/
theorem onMessage_dedupes_by_id_witness :
    useChatbot.onMessage
        [⟨"m1".data, "hi".data, Sender.user, []⟩]
        ⟨"m1".data, "hi".data, Role.user, none⟩ =
      [⟨"m1".data, "hi".data, Sender.user, []⟩] :=
  (onMessage_dedupes_by_id
      [⟨"m1".data, "hi".data, Sender.user, []⟩]
      ⟨"m1".data, "hi".data, Role.user, none⟩).1
    ⟨⟨"m1".data, "hi".data, Sender.user, []⟩, by simp, rfl⟩

/-- C7: `escalateToHumanAgent` inserts at most one notification row (of kind
escalation), never writes `conversation_agents` (escalation is a request,
not a takeover), touches no other table, and when no agent is assigned to
the owning bot it performs no write at all, leaving the conversation
Bot-Owned. -/
theorem escalateToHumanAgent_frame (cb : Chatbot) (cid : List Char)
    (store : Store) :
    (useChatbot.escalateToHumanAgent cb cid store).conversation_agents =
        store.conversation_agents ∧
      (useChatbot.escalateToHumanAgent cb cid store).conversations =
        store.conversations ∧
      (useChatbot.escalateToHumanAgent cb cid store).messages =
        store.messages ∧
      (useChatbot.escalateToHumanAgent cb cid store).agent_assignments =
        store.agent_assignments ∧
      ((useChatbot.escalateToHumanAgent cb cid store).agent_notifications =
          store.agent_notifications ∨
        ∃ a, a ∈ store.agent_assignments ∧ a.chatbot_id = cb.id ∧
          (useChatbot.escalateToHumanAgent cb cid store).agent_notifications =
            store.agent_notifications ++
              [⟨a.agent_id, cid, .escalation,
                "Customer conversation escalated due to negative sentiment in ".data
                  ++ cb.name, some cb.name⟩]) ∧
      ((store.agent_assignments.filter (fun a => a.chatbot_id = cb.id)) = [] →
        useChatbot.escalateToHumanAgent cb cid store = store) := by
  unfold useChatbot.escalateToHumanAgent
  rcases htake : (store.agent_assignments.filter
      (fun a => a.chatbot_id = cb.id)).take 1 with _ | ⟨a, t⟩
  · rw [htake]
    exact ⟨rfl, rfl, rfl, rfl, Or.inl rfl, fun _ => rfl⟩
  · rw [htake]
    have hmem1 : a ∈ (store.agent_assignments.filter
        (fun x => x.chatbot_id = cb.id)).take 1 := by
      rw [htake]; exact List.mem_cons_self a t
    have hmem2 := List.mem_filter.mp (List.mem_of_mem_take hmem1)
    refine ⟨rfl, rfl, rfl, rfl,
      Or.inr ⟨a, hmem2.1, by simpa using hmem2.2, rfl⟩, ?_⟩
    intro hnil
    rw [hnil] at htake
    simp at htake

/-- Witness for C7 at a concrete store with no agent assigned to the bot. -/
theorem escalateToHumanAgent_frame_witness :
    useChatbot.escalateToHumanAgent ⟨"b".data, "B".data, none⟩ "c".data
        ⟨[], [], [], [], []⟩ = ⟨[], [], [], [], []⟩ :=
  (escalateToHumanAgent_frame ⟨"b".data, "B".data, none⟩ "c".data
    ⟨[], [], [], [], []⟩).2.2.2.2.2 (by decide)

/-- C8 counterexample: with no Ownership Assignment present at all,
`RealtimeService.toggleKnowledgeBase` does NOT fail with NotFound — the
zero-row update succeeds and leaves the store unchanged. -/
theorem toggleKnowledgeBase_no_notfound :
    RealtimeService.toggleKnowledgeBase "c1".data true ⟨[], [], [], [], []⟩ =
        .ok ⟨[], [], [], [], []⟩ ∧
      ∀ e : DbError,
        RealtimeService.toggleKnowledgeBase "c1".data true
          ⟨[], [], [], [], []⟩ ≠ .error e := by
  constructor
  · rfl
  · intro e h
    simp [RealtimeService.toggleKnowledgeBase] at h

/-- C8 amended: both `toggleKnowledgeBase` implementations succeed and
update `knowledge_base_enabled` on exactly the assignment rows of the given
conversation (`RealtimeService` variant) resp. of the given conversation
and acting agent (`RealTimeChatManager` variant), change no other field,
row or table — and when no assignment row matches, the call is a silent
no-op success rather than a NotFound failure. -/
theorem toggleKnowledgeBase_targeted_update (cid aid : List Char)
    (enabled : Bool) (store : Store) :
    (∃ st' : Store,
        RealtimeService.toggleKnowledgeBase cid enabled store = .ok st' ∧
        st'.conversation_agents = store.conversation_agents.map (fun r =>
          if r.conversation_id = cid then
            { r with knowledge_base_enabled := enabled }
          else r) ∧
        st'.conversations = store.conversations ∧
        st'.messages = store.messages ∧
        st'.agent_assignments = store.agent_assignments ∧
        st'.agent_notifications = store.agent_notifications ∧
        ((∀ r ∈ store.conversation_agents, ¬r.conversation_id = cid) →
          st' = store)) ∧
      (∃ st' : Store,
        RealTimeChatManager.toggleKnowledgeBase cid enabled aid store =
            .ok st' ∧
        st'.conversation_agents = store.conversation_agents.map (fun r =>
          if r.conversation_id = cid ∧ r.agent_id = aid then
            { r with knowledge_base_enabled := enabled }
          else r) ∧
        st'.conversations = store.conversations ∧
        st'.messages = store.messages ∧
        st'.agent_assignments = store.agent_assignments ∧
        st'.agent_notifications = store.agent_notifications ∧
        ((∀ r ∈ store.conversation_agents, ¬r.conversation_id = cid) →
          st' = store)) := by
  constructor
  · refine ⟨_, rfl, rfl, rfl, rfl, rfl, rfl, ?_⟩
    intro hnone
    have hmap : store.conversation_agents.map (fun r =>
        if r.conversation_id = cid then
          { r with knowledge_base_enabled := enabled }
        else r) = store.conversation_agents := by
      have := List.map_congr_left (l := store.conversation_agents)
        (f := fun r => if r.conversation_id = cid then
          { r with knowledge_base_enabled := enabled } else r)
        (g := id) (fun r hr => by simp [hnone r hr])
      simpa using this
    simp [RealtimeService.toggleKnowledgeBase, hmap]
  · refine ⟨_, rfl, rfl, rfl, rfl, rfl, rfl, ?_⟩
    intro hnone
    have hmap : store.conversation_agents.map (fun r =>
        if r.conversation_id = cid ∧ r.agent_id = aid then
          { r with knowledge_base_enabled := enabled }
        else r) = store.conversation_agents := by
      have := List.map_congr_left (l := store.conversation_agents)
        (f := fun r => if r.conversation_id = cid ∧ r.agent_id = aid then
          { r with knowledge_base_enabled := enabled } else r)
        (g := id) (fun r hr => by simp [hnone r hr])
      simpa using this
    simp [RealTimeChatManager.toggleKnowledgeBase, hmap]

/-- Witness for the amended C8 at a concrete one-row store with no matching
assignment. -/
theorem toggleKnowledgeBase_targeted_update_witness :
    ∃ st' : Store,
      RealtimeService.toggleKnowledgeBase "c1".data false
          ⟨[], [], [⟨"c2".data, "a1".data, true⟩], [], []⟩ = .ok st' ∧
        st' = ⟨[], [], [⟨"c2".data, "a1".data, true⟩], [], []⟩ := by
  obtain ⟨st', hok, -, -, -, -, -, hid⟩ :=
    (toggleKnowledgeBase_targeted_update "c1".data "a1".data false
      ⟨[], [], [⟨"c2".data, "a1".data, true⟩], [], []⟩).1
  exact ⟨st', hok, hid (by decide)⟩

/-- C2: once an Ownership Assignment row exists for conversation C, a second
`setOwnership` (`assignAgentToConversation`) for C by any other agent fails
with Conflict, leaving the single live assignment row for C in place; after
`releaseOwnership` (the hand-back delete) removes the row, a subsequent
`setOwnership` succeeds and creates the new single assignment row. -/
theorem setOwnership_conflict_then_release_succeeds
    (store : Store) (cid a1 a2 : List Char) (row : ConversationAgentRow)
    (hone : store.conversation_agents.filter
      (fun r => r.conversation_id = cid) = [row])
    (hagent : row.agent_id = a1) :
    useAgents.assignAgentToConversation cid a2 store =
        .error DbError.conflict ∧
      store.conversation_agents.filter
        (fun r => r.conversation_id = cid) = [row] ∧
      (AgentLogin.releaseAssignment cid a1 store).conversation_agents.filter
        (fun r => r.conversation_id = cid) = [] ∧
      ∃ st' : Store,
        useAgents.assignAgentToConversation cid a2
            (AgentLogin.releaseAssignment cid a1 store) = .ok st' ∧
          st'.conversation_agents.filter (fun r => r.conversation_id = cid) =
            [⟨cid, a2, true⟩] := by
  have hrowmem : row ∈ store.conversation_agents.filter
      (fun r => r.conversation_id = cid) := by
    rw [hone]; exact List.mem_cons_self row []
  have hrow := List.mem_filter.mp hrowmem
  have hrowcid : row.conversation_id = cid := by simpa using hrow.2
  have hany : store.conversation_agents.any
      (fun r => r.conversation_id = cid) = true :=
    List.any_eq_true.mpr ⟨row, hrow.1, by simpa using hrowcid⟩
  have hreleased : (AgentLogin.releaseAssignment cid a1 store).conversation_agents.filter
      (fun r => r.conversation_id = cid) = [] := by
    unfold AgentLogin.releaseAssignment
    rw [List.filter_comm, hone]
    simp [List.filter, hrowcid, hagent]
  refine ⟨?_, hone, hreleased, ?_⟩
  · simp [useAgents.assignAgentToConversation, insertConversationAgent, hany]
  · have hanyf : (AgentLogin.releaseAssignment cid a1 store).conversation_agents.any
        (fun r => r.conversation_id = cid) = false := by
      cases h : (AgentLogin.releaseAssignment cid a1 store).conversation_agents.any
          (fun r => r.conversation_id = cid) with
      | false => rfl
      | true =>
          obtain ⟨r, hr, hp⟩ := List.any_eq_true.mp h
          have : r ∈ (AgentLogin.releaseAssignment cid a1 store).conversation_agents.filter
              (fun r => r.conversation_id = cid) :=
            List.mem_filter.mpr ⟨hr, hp⟩
          rw [hreleased] at this
          simp at this
    refine ⟨{ AgentLogin.releaseAssignment cid a1 store with
        conversation_agents :=
          (AgentLogin.releaseAssignment cid a1 store).conversation_agents ++
            [⟨cid, a2, true⟩] }, ?_, ?_⟩
    · simp [useAgents.assignAgentToConversation, insertConversationAgent, hanyf]
    · rw [List.filter_append, hreleased]
      simp [List.filter]

/-- Witness for C2 at a concrete single-assignment store. -/
theorem setOwnership_conflict_then_release_succeeds_witness :
    useAgents.assignAgentToConversation "c".data "a2".data
        ⟨[], [], [⟨"c".data, "a1".data, true⟩], [], []⟩ =
      .error DbError.conflict :=
  (setOwnership_conflict_then_release_succeeds
      ⟨[], [], [⟨"c".data, "a1".data, true⟩], [], []⟩
      "c".data "a1".data "a2".data ⟨"c".data, "a1".data, true⟩
      (by decide) rfl).1


set_option maxRecDepth 100000 in
/-- C1 (code bug): with the conversation Human-Owned in the Store (a live
`conversation_agents` row exists), `sendMessage` persists the customer
message but ALSO runs the sentiment check and calls the Responder, because
the ownership test after `checkAgentTakeover` reads the stale closure
binding of `agentTakenOver` instead of the state just fetched; an
automated-responder reply is persisted into the Human-Owned conversation. -/
theorem sendMessage_calls_responder_despite_human_ownership :
    (∃ r ∈ c1store.conversation_agents, r.conversation_id = c1conv) ∧
      (c1run.2.1.messages.filter (fun m => m.role = Role.user)).length = 1 ∧
      c1run.2.2.classifierCalls = 1 ∧
      c1run.2.2.responderCalls = 1 ∧
      (c1run.2.1.messages.filter (fun m => m.role = Role.assistant)).length
        = 1 := by
  decide


set_option maxRecDepth 100000 in
/-- C3 counterexample: the Responder is called, ownership becomes
Human-Owned during the call, and the generated reply is persisted as an
automated-responder message anyway — no post-Responder ownership re-check
discards it. -/
theorem sendMessage_reply_not_discarded_after_midcall_takeover :
    c3run.2.2.responderCalls = 1 ∧
      (∃ r ∈ c3run.2.1.conversation_agents, r.conversation_id = c3conv) ∧
      (c3run.2.1.messages.filter (fun m =>
        m.role = Role.assistant ∧ m.content = "generated reply".data)).length
        = 1 := by
  decide

/-- C3 amended: the orchestrator performs NO ownership re-check after the
Responder returns — the post-Responder persist step appends the generated
reply as an automated-responder message unconditionally, whatever the
`conversation_agents` table holds at that moment (which it leaves
untouched). -/
theorem sendMessagePhase2_persists_reply_unconditionally
    (cid msg : List Char) (rs : Option (List (List Char)))
    (srcs : List (List Char)) (now : List Char) (s : HookState)
    (store : Store) :
    (useChatbot.sendMessagePhase2 cid msg rs srcs now s store).2.messages =
        store.messages ++ [⟨cid, msg, Role.assistant, none⟩] ∧
      (useChatbot.sendMessagePhase2 cid msg rs srcs now s
          store).2.conversation_agents = store.conversation_agents :=
  ⟨rfl, rfl⟩


@[simp] theorem ensureConversation_fst (b sid : List Char) (store : Store) :
    (RealTimeChatManager.ensureConversation b sid store).1 =
      RealTimeChatManager.generateConversationId b sid := rfl

@[simp] theorem ensureConversation_snd_messages (b sid : List Char)
    (store : Store) :
    (RealTimeChatManager.ensureConversation b sid store).2.messages =
      store.messages := by
  unfold RealTimeChatManager.ensureConversation
  dsimp only
  split <;> rfl

@[simp] theorem ensureConversation_snd_conversation_agents (b sid : List Char)
    (store : Store) :
    (RealTimeChatManager.ensureConversation b sid
        store).2.conversation_agents = store.conversation_agents := by
  unfold RealTimeChatManager.ensureConversation
  dsimp only
  split <;> rfl

@[simp] theorem ensureConversation_snd_agent_assignments (b sid : List Char)
    (store : Store) :
    (RealTimeChatManager.ensureConversation b sid
        store).2.agent_assignments = store.agent_assignments := by
  unfold RealTimeChatManager.ensureConversation
  dsimp only
  split <;> rfl

@[simp] theorem ensureConversation_snd_agent_notifications (b sid : List Char)
    (store : Store) :
    (RealTimeChatManager.ensureConversation b sid
        store).2.agent_notifications = store.agent_notifications := by
  unfold RealTimeChatManager.ensureConversation
  dsimp only
  split <;> rfl

@[simp] theorem chatManager_sendMessage_conversation_agents
    (cid c : List Char) (role : Role) (aid : Option (List Char))
    (store : Store) :
    (RealTimeChatManager.sendMessage cid c role aid
        store).conversation_agents = store.conversation_agents := rfl

@[simp] theorem chatManager_sendMessage_agent_assignments
    (cid c : List Char) (role : Role) (aid : Option (List Char))
    (store : Store) :
    (RealTimeChatManager.sendMessage cid c role aid
        store).agent_assignments = store.agent_assignments := rfl

@[simp] theorem chatManager_sendMessage_agent_notifications
    (cid c : List Char) (role : Role) (aid : Option (List Char))
    (store : Store) :
    (RealTimeChatManager.sendMessage cid c role aid
        store).agent_notifications = store.agent_notifications := rfl

/-- With no Ownership Assignment rows, `checkAgentTakeover` resets the three
derived fields. -/
theorem checkAgentTakeover_of_no_assignment (cid : List Char)
    (s : HookState) (store : Store) (h : store.conversation_agents = []) :
    useChatbot.checkAgentTakeover cid s store =
      { s with agentTakenOver := false, assignedAgent := none,
               knowledgeBaseEnabled := true } := by
  unfold useChatbot.checkAgentTakeover
  rw [h]
  rfl

/-- When an agent is assigned to the bot, `escalateToHumanAgent` appends
exactly the one escalation notification for the first such agent. -/
theorem escalateToHumanAgent_insert (cb : Chatbot) (cid : List Char)
    (store : Store) (a : AgentAssignmentRow) (t : List AgentAssignmentRow)
    (hfil : store.agent_assignments.filter
      (fun x => x.chatbot_id = cb.id) = a :: t) :
    useChatbot.escalateToHumanAgent cb cid store =
      { store with agent_notifications := store.agent_notifications ++
          [⟨a.agent_id, cid, .escalation,
            "Customer conversation escalated due to negative sentiment in ".data
              ++ cb.name, some cb.name⟩] } := by
  unfold useChatbot.escalateToHumanAgent
  rw [hfil]
  rfl

/-- One `sendMessage` call in an already-escalated, Bot-Owned situation:
the escalation policy does not re-fire (no notification is written), and
the escalated/ownership state and the assignment tables are preserved. -/
theorem sendMessage_step_escalated (cb : Chatbot)
    (classify : List (List Char) → Bool)
    (retrieve : List Char → List (List Char × Nat))
    (gen : List (Role × List Char) → List Char →
      Except Unit (List Char × Option (List (List Char))))
    (now fresh um : List Char) (s : HookState) (store : Store)
    (hesc : s.isEscalated = true) (hagent : s.agentTakenOver = false)
    (hca : store.conversation_agents = []) :
    (useChatbot.sendMessage cb classify retrieve gen id now fresh um s
        store).1.isEscalated = true ∧
      (useChatbot.sendMessage cb classify retrieve gen id now fresh um s
        store).1.agentTakenOver = false ∧
      (useChatbot.sendMessage cb classify retrieve gen id now fresh um s
        store).2.1.conversation_agents = [] ∧
      (useChatbot.sendMessage cb classify retrieve gen id now fresh um s
        store).2.1.agent_assignments = store.agent_assignments ∧
      (useChatbot.sendMessage cb classify retrieve gen id now fresh um s
        store).2.1.agent_notifications = store.agent_notifications := by
  simp only [useChatbot.sendMessage, useChatbot.sendMessagePhase1,
    useChatbot.sendMessagePhase1.sendMessagePrepareResponder,
    useChatbot.sendMessagePhase2]
  simp [hagent, hesc, hca, checkAgentTakeover_of_no_assignment]
  split <;>
    refine ⟨?_, ?_, ?_, ?_, ?_⟩ <;>
      (try split) <;> (try split) <;> simp [hca]

/-- One `sendMessage` call on a fresh Bot-Owned conversation whose
Classifier verdict is escalate, with an agent assigned to the bot: exactly
one escalation notification is written and the state becomes escalated. -/
theorem sendMessage_step_first_escalation (cb : Chatbot)
    (classify : List (List Char) → Bool)
    (retrieve : List Char → List (List Char × Nat))
    (gen : List (Role × List Char) → List Char →
      Except Unit (List Char × Option (List (List Char))))
    (now fresh um : List Char) (s : HookState) (store : Store)
    (hesc : s.isEscalated = false) (hagent : s.agentTakenOver = false)
    (hca : store.conversation_agents = [])
    (hclassify : ∀ x, classify x = true)
    (a : AgentAssignmentRow) (t : List AgentAssignmentRow)
    (hfil : store.agent_assignments.filter
      (fun x => x.chatbot_id = cb.id) = a :: t) :
    (useChatbot.sendMessage cb classify retrieve gen id now fresh um s
        store).1.isEscalated = true ∧
      (useChatbot.sendMessage cb classify retrieve gen id now fresh um s
        store).1.agentTakenOver = false ∧
      (useChatbot.sendMessage cb classify retrieve gen id now fresh um s
        store).2.1.conversation_agents = [] ∧
      (useChatbot.sendMessage cb classify retrieve gen id now fresh um s
        store).2.1.agent_assignments = store.agent_assignments ∧
      escalationCount (useChatbot.sendMessage cb classify retrieve gen id now
        fresh um s store).2.1 = escalationCount store + 1 := by
  simp only [useChatbot.sendMessage, useChatbot.sendMessagePhase1,
    useChatbot.sendMessagePhase1.sendMessagePrepareResponder,
    useChatbot.sendMessagePhase2]
  simp [hagent, hesc, hca, checkAgentTakeover_of_no_assignment, hclassify]
  have h2 : (RealTimeChatManager.sendMessage
      (RealTimeChatManager.generateConversationId cb.id
        (s.currentSessionId.getD fresh)) um Role.user none
      (RealTimeChatManager.ensureConversation cb.id
        (s.currentSessionId.getD fresh) store).2).agent_assignments.filter
      (fun x => x.chatbot_id = cb.id) = a :: t := by
    simp [hfil]
  rw [escalateToHumanAgent_insert _ _ _ a t h2]
  refine ⟨by simp [hca], by simp, ?_⟩
  simp [escalationCount, List.filter_append]


/-- Once escalated (and still Bot-Owned), any further customer messages
leave the notification table untouched: the policy does not re-fire. -/
theorem runCustomerMessages_escalated_invariant (cb : Chatbot)
    (classify : List (List Char) → Bool)
    (retrieve : List Char → List (List Char × Nat))
    (gen : List (Role × List Char) → List Char →
      Except Unit (List Char × Option (List (List Char))))
    (now fresh : List Char) :
    ∀ (msgs : List (List Char)) (s : HookState) (store : Store),
      s.isEscalated = true → s.agentTakenOver = false →
      store.conversation_agents = [] →
      (runCustomerMessages cb classify retrieve gen now fresh msgs s
          store).1.isEscalated = true ∧
        (runCustomerMessages cb classify retrieve gen now fresh msgs s
          store).1.agentTakenOver = false ∧
        (runCustomerMessages cb classify retrieve gen now fresh msgs s
          store).2.conversation_agents = [] ∧
        (runCustomerMessages cb classify retrieve gen now fresh msgs s
          store).2.agent_assignments = store.agent_assignments ∧
        (runCustomerMessages cb classify retrieve gen now fresh msgs s
          store).2.agent_notifications = store.agent_notifications := by
  intro msgs
  induction msgs with
  | nil =>
      intro s store h1 h2 h3
      exact ⟨h1, h2, h3, rfl, rfl⟩
  | cons um rest ih =>
      intro s store h1 h2 h3
      have hstep := sendMessage_step_escalated cb classify retrieve gen now
        fresh um s store h1 h2 h3
      have hmid := ih
        (useChatbot.sendMessage cb classify retrieve gen id now fresh um s
          store).1
        (useChatbot.sendMessage cb classify retrieve gen id now fresh um s
          store).2.1
        hstep.1 hstep.2.1 hstep.2.2.1
      simp only [runCustomerMessages, List.foldl_cons] at hmid ⊢
      exact ⟨hmid.1, hmid.2.1, hmid.2.2.1,
        hmid.2.2.2.1.trans hstep.2.2.2.1,
        hmid.2.2.2.2.trans hstep.2.2.2.2⟩

/-- C6: during a single Bot-Owned period, feeding any nonempty sequence of
customer messages that the Classifier judges escalation-worthy (in
particular 10 consecutive negative-sentiment messages) to a fresh,
non-escalated conversation of a bot with an assigned agent produces
EXACTLY ONE escalation notification: the first call escalates, every later
call is blocked by the escalated flag. -/
theorem escalation_at_most_once_per_bot_owned_period (cb : Chatbot)
    (classify : List (List Char) → Bool)
    (retrieve : List Char → List (List Char × Nat))
    (gen : List (Role × List Char) → List Char →
      Except Unit (List Char × Option (List (List Char))))
    (now fresh um : List Char) (msgs : List (List Char))
    (s : HookState) (store : Store)
    (hesc : s.isEscalated = false) (hagent : s.agentTakenOver = false)
    (hca : store.conversation_agents = [])
    (hclassify : ∀ x, classify x = true)
    (a : AgentAssignmentRow) (t : List AgentAssignmentRow)
    (hfil : store.agent_assignments.filter
      (fun x => x.chatbot_id = cb.id) = a :: t) :
    escalationCount (runCustomerMessages cb classify retrieve gen now fresh
        (um :: msgs) s store).2 = escalationCount store + 1 := by
  have hstep := sendMessage_step_first_escalation cb classify retrieve gen
    now fresh um s store hesc hagent hca hclassify a t hfil
  have hrest := runCustomerMessages_escalated_invariant cb classify retrieve
    gen now fresh msgs
    (useChatbot.sendMessage cb classify retrieve gen id now fresh um s
      store).1
    (useChatbot.sendMessage cb classify retrieve gen id now fresh um s
      store).2.1
    hstep.1 hstep.2.1 hstep.2.2.1
  simp only [runCustomerMessages, List.foldl_cons] at hrest ⊢
  have hcount : escalationCount
      (List.foldl (fun acc um =>
        ((useChatbot.sendMessage cb classify retrieve gen id now fresh um
            acc.1 acc.2).1,
         (useChatbot.sendMessage cb classify retrieve gen id now fresh um
            acc.1 acc.2).2.1))
        ((useChatbot.sendMessage cb classify retrieve gen id now fresh um s
            store).1,
         (useChatbot.sendMessage cb classify retrieve gen id now fresh um s
            store).2.1) msgs).2 =
      escalationCount (useChatbot.sendMessage cb classify retrieve gen id
        now fresh um s store).2.1 := by
    unfold escalationCount
    rw [hrest.2.2.2.2]
  rw [hcount, hstep.2.2.2.2]


/-- Witness for C6: ten consecutive negative-sentiment customer messages
produce exactly one escalation notification. -/
theorem escalation_at_most_once_per_bot_owned_period_witness :
    escalationCount (runCustomerMessages c6bot (fun _ => true) (fun _ => [])
        (fun _ _ => .ok ("ok".data, none)) "t".data "sess6".data
        ("bad1".data :: ["bad2".data, "bad3".data, "bad4".data, "bad5".data,
          "bad6".data, "bad7".data, "bad8".data, "bad9".data, "bad10".data])
        HookState.init c6store).2 = escalationCount c6store + 1 :=
  escalation_at_most_once_per_bot_owned_period c6bot (fun _ => true)
    (fun _ => []) (fun _ _ => .ok ("ok".data, none)) "t".data "sess6".data
    "bad1".data
    ["bad2".data, "bad3".data, "bad4".data, "bad5".data, "bad6".data,
     "bad7".data, "bad8".data, "bad9".data, "bad10".data]
    HookState.init c6store rfl rfl rfl (fun _ => rfl)
    ⟨"agent6".data, "bot6".data⟩ [] (by decide)

/-- C10: for every pair of input strings (empty included) the derived
identifier is a 36-character UUID-shaped string: five dash-separated
hexadecimal groups of lengths 8, 4, 4, 4 and 12, the third beginning with
'4' and the fourth with '8', with every hex digit drawn from the
8-hex-digit zero-padded absolute value of the 32-bit rolling hash of the
concatenated inputs. -/
theorem generateConversationId_uuid_shape (b s : List Char) :
    ∃ hh g1 g2 g3 g4 g5 : List Char,
      hh = padStart 8 '0' (jsToHex (jsHash32 (b ++ '_' :: s)).natAbs) ∧
      hh.length = 8 ∧
      (∀ c ∈ hh, c ∈ hexDigits) ∧
      SocketChatManager.generateConversationId b s =
        g1 ++ '-' :: (g2 ++ '-' :: (g3 ++ '-' :: (g4 ++ '-' :: g5))) ∧
      (SocketChatManager.generateConversationId b s).length = 36 ∧
      g1.length = 8 ∧ g2.length = 4 ∧ g3.length = 4 ∧ g4.length = 4 ∧
      g5.length = 12 ∧
      (∀ c ∈ g1, c ∈ hexDigits) ∧ (∀ c ∈ g2, c ∈ hexDigits) ∧
      (∀ c ∈ g3, c ∈ hexDigits) ∧ (∀ c ∈ g4, c ∈ hexDigits) ∧
      (∀ c ∈ g5, c ∈ hexDigits) ∧
      '-' ∉ g1 ∧ '-' ∉ g2 ∧ '-' ∉ g3 ∧ '-' ∉ g4 ∧ '-' ∉ g5 ∧
      g3.head? = some '4' ∧ g4.head? = some '8' ∧
      g1 = hh ∧ g2 = hh.take 4 ∧ g3 = '4' :: (hh.drop 1).take 3 ∧
      g4 = '8' :: hh.take 3 ∧ g5 = (hh ++ hh).take 12 := by
  obtain ⟨hlen, hmem⟩ := hashHex_spec (b ++ '_' :: s)
  simp only [SocketChatManager.generateConversationId]
  generalize hH : padStart 8 '0' (jsToHex (jsHash32 (b ++ '_' :: s)).natAbs)
    = hh at hlen hmem ⊢
  clear hH
  rcases hh with _ | ⟨c0, hh⟩; · simp at hlen
  rcases hh with _ | ⟨c1, hh⟩; · simp at hlen
  rcases hh with _ | ⟨c2, hh⟩; · simp at hlen
  rcases hh with _ | ⟨c3, hh⟩; · simp at hlen
  rcases hh with _ | ⟨c4, hh⟩; · simp at hlen
  rcases hh with _ | ⟨c5, hh⟩; · simp at hlen
  rcases hh with _ | ⟨c6, hh⟩; · simp at hlen
  rcases hh with _ | ⟨c7, hh⟩; · simp at hlen
  have hnil : hh = [] := by simpa using hlen
  subst hnil
  have hnotdash : ('-' : Char) ∉ hexDigits := by decide
  have hx1 : ∀ c ∈ [c0, c1, c2, c3, c4, c5, c6, c7], c ∈ hexDigits := hmem
  have hx2 : ∀ c ∈ [c0, c1, c2, c3], c ∈ hexDigits := by
    intro c hcm
    apply hx1
    simp only [List.mem_cons, List.not_mem_nil, or_false] at hcm ⊢
    tauto
  have hx3 : ∀ c ∈ ['4', c1, c2, c3], c ∈ hexDigits := by
    intro c hcm
    simp only [List.mem_cons, List.not_mem_nil, or_false] at hcm
    rcases hcm with rfl | rfl | rfl | rfl
    · decide
    all_goals (apply hx1; simp)
  have hx4 : ∀ c ∈ ['8', c0, c1, c2], c ∈ hexDigits := by
    intro c hcm
    simp only [List.mem_cons, List.not_mem_nil, or_false] at hcm
    rcases hcm with rfl | rfl | rfl | rfl
    · decide
    all_goals (apply hx1; simp)
  have hx5 : ∀ c ∈ [c0, c1, c2, c3, c4, c5, c6, c7, c0, c1, c2, c3],
      c ∈ hexDigits := by
    intro c hcm
    apply hx1
    simp only [List.mem_cons, List.not_mem_nil, or_false] at hcm ⊢
    tauto
  exact ⟨[c0, c1, c2, c3, c4, c5, c6, c7],
    [c0, c1, c2, c3, c4, c5, c6, c7], [c0, c1, c2, c3],
    ['4', c1, c2, c3], ['8', c0, c1, c2],
    [c0, c1, c2, c3, c4, c5, c6, c7, c0, c1, c2, c3],
    rfl, rfl, hmem, rfl, rfl, rfl, rfl, rfl, rfl, rfl,
    hx1, hx2, hx3, hx4, hx5,
    fun h => hnotdash (hx1 '-' h), fun h => hnotdash (hx2 '-' h),
    fun h => hnotdash (hx3 '-' h), fun h => hnotdash (hx4 '-' h),
    fun h => hnotdash (hx5 '-' h),
    rfl, rfl, rfl, rfl, rfl, rfl, rfl⟩
